import Mathlib

/-!
Formal model of the training script
`src/workshops/Protein_Language_Modelling/scripts/training/cuda/cuda-oas-mlm-train-ddp.py`.

Pure fragments of the script are translated into executable Lean definitions.
Stateful fragments (the training loop, environment-variable writes) are modelled
by explicit state passing and by traces of actions.  Python floats whose only
role is data flow are modelled by rationals; wall-clock timing and throughput
fields of the metric reports are omitted (they depend on real time).
Line numbers in the doc comments refer to the Python source file.
-/

namespace DDP

/-- Python exceptions visible on the script's code paths.  `overflowError`
models `OverflowError` (the one exception the script catches), `valueError`
models `ValueError` (raised by `list.index` on a missing element); any other
exception is carried by name. -/
inductive PyExn where
  | overflowError
  | valueError
  | other (name : String)
deriving DecidableEq

/-- Value of the `perplexity` variable in `calc_perplexity` (lines 167-172):
either the float returned by `math.exp` or `float("inf")`. -/
inductive PerpV where
  | finite (v : ℚ)
  | posInf
deriving DecidableEq

/-- Lines 167-172.  The `try` body `perplexity = math.exp(loss)` is modelled by
its outcome: `.ok v` when `math.exp` returns the value `v`, `.error e` when it
raises the exception `e`.  The `except OverflowError` clause catches exactly
`OverflowError` and substitutes `float("inf")`; any other exception propagates
out of the function. -/
def calc_perplexity (expLoss : Except PyExn ℚ) : Except PyExn PerpV :=
  match expLoss with
  | .ok v => .ok (.finite v)
  | .error .overflowError => .ok .posInf
  | .error e => .error e

/-- The data actually printed by one `report_metrics` call (lines 175-191):
epoch, step counter, and the loss value.  The perplexity printed alongside is
`calc_perplexity` of `math.exp` of this same loss; the samples/sec and
tokens/sec fields depend on wall-clock time and are omitted. -/
structure ReportRecord where
  epoch : ℕ
  steps : ℕ
  loss : ℚ
deriving DecidableEq

/-- Lines 175-191.  `reported_loss = loss.detach().float()` is the caller's own
local loss value; the function prints it only when `rank == 0` and performs no
collective communication (no value from any other rank enters the output).
`some r` models the printed line, `none` models no output. -/
def report_metrics (rank : ℕ) (loss : ℚ) (epoch steps : ℕ) : Option ReportRecord :=
  if rank = 0 then some ⟨epoch, steps, loss⟩ else none

/-- Definition following the spec's words for claim C3, not the source: the loss
"aggregated over all ranks of the process group", taken as the mean of the
per-rank local losses. -/
def specAggregatedLoss (lossesByRank : List ℚ) : ℚ :=
  lossesByRank.sum / (lossesByRank.length : ℚ)

/-- Externally visible actions of the launcher and of a worker: an environment
variable write, or the `dist.init_process_group` call with its parameters. -/
inductive Action where
  | setEnv (key value : String)
  | initProcessGroup (backend : String) (worldSize : ℕ) (rank : ℕ)
deriving DecidableEq

/-- Model of Python's `list.index` (first index of an equal element;
`ValueError` when the element is absent), as used on line 210. -/
def pyIndex (x : String) : List String → Except PyExn ℕ
  | [] => .error .valueError
  | y :: ys => if y = x then .ok 0 else (pyIndex x ys).map (· + 1)

/-- Lines 204-214 of `worker`: `world_size = len(args.hosts) * args.num_gpus`;
`os.environ['WORLD_SIZE'] = str(world_size)`;
`node_id = args.hosts.index(args.current_host)`;
`global_rank = node_id * args.num_gpus + local_rank`;
`os.environ['RANK'] = str(global_rank)`;
`dist.init_process_group(backend="nccl", world_size=world_size, rank=global_rank)`.
The result is the trace of env writes and the init call, in program order;
if `list.index` raises, the error propagates. -/
def workerInit (hosts : List String) (currentHost : String)
    (numGpus localRank : ℕ) : Except PyExn (List Action) :=
  let world_size := hosts.length * numGpus
  match pyIndex currentHost hosts with
  | .error e => .error e
  | .ok node_id =>
    let global_rank := node_id * numGpus + localRank
    .ok [Action.setEnv "WORLD_SIZE" (toString world_size),
         Action.setEnv "RANK" (toString global_rank),
         Action.initProcessGroup "nccl" world_size global_rank]

/-- Lines 488-492 of `__main__`: `master` is the `master_hostname` field of the
JSON-decoded `SM_TRAINING_ENV` environment variable (the decoding itself is
Python's `json.loads`); the script then sets `MASTER_ADDR` to it and
`MASTER_PORT` to the string `"7777"`. -/
def mainEnvSetup (masterHostname : String) : List Action :=
  [Action.setEnv "MASTER_ADDR" masterHostname,
   Action.setEnv "MASTER_PORT" "7777"]

/-- Constructor arguments of `torch.utils.data.distributed.DistributedSampler`
as supplied on lines 250-262; `dataset` is an abstract handle identifying the
wrapped dataset. -/
structure DistributedSamplerCfg where
  dataset : ℕ
  numReplicas : ℕ
  rank : ℕ
  shuffle : Bool
deriving DecidableEq

/-- Constructor arguments of `DataLoader` as supplied on lines 271-284
(`collate_fn` is an opaque framework object and is omitted).  `sampler = none`
models passing `None`. -/
structure DataLoaderCfg where
  dataset : ℕ
  batchSize : ℕ
  sampler : Option DistributedSamplerCfg
  shuffle : Bool
deriving DecidableEq

/-- Python truthiness of the `train_sampler` / `test_sampler` variable in the
conditional expression `False if train_sampler else True` (lines 276, 283):
the variable holds a freshly constructed `DistributedSampler` object (truthy)
rather than `None` (falsy); the object-or-None alternative is modelled by
`Option`. -/
def samplerTruthy (o : Option DistributedSamplerCfg) : Bool :=
  o.isSome

/-- Lines 250-284: construction of the two `DistributedSampler`s (with
`num_replicas = world_size`, `rank = global_rank`, `shuffle = True`) and of the
two `DataLoader`s (with the matching sampler and
`shuffle = False if sampler else True`). -/
def buildSamplersAndLoaders (worldSize globalRank trainBatchSize evalBatchSize
    trainDataset testDataset : ℕ) :
    (DistributedSamplerCfg × DistributedSamplerCfg) × (DataLoaderCfg × DataLoaderCfg) :=
  let train_sampler : DistributedSamplerCfg :=
    ⟨trainDataset, worldSize, globalRank, true⟩
  let test_sampler : DistributedSamplerCfg :=
    ⟨testDataset, worldSize, globalRank, true⟩
  let train_loader : DataLoaderCfg :=
    ⟨trainDataset, trainBatchSize, some train_sampler,
      if samplerTruthy (some train_sampler) then false else true⟩
  let eval_loader : DataLoaderCfg :=
    ⟨testDataset, evalBatchSize, some test_sampler,
      if samplerTruthy (some test_sampler) then false else true⟩
  ((train_sampler, test_sampler), (train_loader, eval_loader))

/-- The ESM model configuration fields the script touches (lines 319-321). -/
structure EsmConfig where
  vocabList : List String
  vocabSize : ℕ
deriving DecidableEq

/-- The model object held by the `model` variable after lines 317-322: either
the checkpoint loaded by `EsmForMaskedLM.from_pretrained(args.model_id)`
(pretrained weights) or `EsmForMaskedLM(my_config)` (randomly initialized
weights from a config). -/
inductive ModelChoice where
  | pretrained (modelId : String)
  | freshFromConfig (cfg : EsmConfig)
deriving DecidableEq

/-- `transformers.models.esm.configuration_esm.get_default_vocab_list` (the
default 33-token ESM vocabulary tuple), imported on line 43. -/
def get_default_vocab_list : List String :=
  ["<cls>", "<pad>", "<eos>", "<unk>", "L", "A", "G", "V", "S", "E", "R", "T",
   "I", "D", "P", "K", "Q", "N", "F", "Y", "M", "H", "W", "C", "X", "B", "U",
   "Z", "O", ".", "-", "<null_1>", "<mask>"]

/-- Lines 317-322: `model = EsmForMaskedLM.from_pretrained(args.model_id)`;
`if args.pretrain:` (an `int` flag, truthy iff nonzero) then
`my_config = copy.deepcopy(model.config)` with
`my_config.vocab_list = get_default_vocab_list()` and
`my_config.vocab_size = len(my_config.vocab_list)`, and
`model = EsmForMaskedLM(my_config)`.  `pretrainedConfig` is the config of the
loaded checkpoint (the source of the deep copy). -/
def selectModel (pretrain : ℤ) (modelId : String) (pretrainedConfig : EsmConfig) :
    ModelChoice :=
  let model := ModelChoice.pretrained modelId
  if pretrain ≠ 0 then
    let my_config :=
      { pretrainedConfig with
        vocabList := get_default_vocab_list,
        vocabSize := get_default_vocab_list.length }
    ModelChoice.freshFromConfig my_config
  else model

/-- Line 494: `torch.multiprocessing.spawn(worker, nprocs=args.num_gpus, ...)`
spawns one worker process per local rank `0, ..., num_gpus - 1` on the current
host. -/
def spawnedLocalRanks (numGpus : ℕ) : List ℕ :=
  List.range numGpus

/-- Line 313: `torch.device("cuda:" + str(local_rank) if
torch.cuda.is_available() else "cpu")`. -/
def deviceFor (cudaAvailable : Bool) (localRank : ℕ) : String :=
  if cudaAvailable then "cuda:" ++ toString localRank else "cpu"

/-- Constructor arguments of `torch.nn.parallel.DistributedDataParallel` as
supplied on line 325. -/
structure DDPCfg where
  deviceIds : List ℕ
  findUnusedParameters : Bool
deriving DecidableEq

/-- Line 325: `DistributedDataParallel(model, device_ids=[local_rank],
find_unused_parameters=True)`. -/
def wrapDDP (localRank : ℕ) : DDPCfg :=
  ⟨[localRank], true⟩

/-- The parsed arguments that the training loop reads (lines 127-155).
`stepsThisRun` (`--steps_this_run`, "Max number of steps", default `None`) is
parsed but, as the development below shows, never read by the loop. -/
structure Args where
  numEpochs : ℕ
  gradientAccumulationSteps : ℕ
  loggingSteps : ℕ
  stepsThisRun : Option ℤ
deriving DecidableEq

/-- Mutable state of the training loop (lines 369-408).  `grad` abstracts the
content of the model parameters' gradient buffers (a single summed scalar
stands for the buffers; `zero_grad` resets it, `backward` adds the batch
gradient).  `stepGrads` records, in order, the gradient value each
`optimizer.step()` call applies.  `reports` records the `report_metrics`
invocations of the periodic logging branch. -/
structure TrainState where
  grad : ℤ
  stepGrads : List ℤ
  schedulerSteps : ℕ
  completedSteps : ℕ
  reports : List ReportRecord
deriving DecidableEq

/-- State at line 369-370: `completed_steps = 0`, nothing accumulated yet. -/
def initialTrainState : TrainState :=
  ⟨0, [], 0, 0, []⟩

/-- The optimizer-step condition of lines 392-394:
`((idx + 1) % args.gradient_accumulation_steps == 0) or
(idx + 1 == num_update_steps_per_epoch)`. -/
def stepCondB (k numBatches idx : ℕ) : Bool :=
  ((idx + 1) % k == 0) || (idx + 1 == numBatches)

/-- The logging condition of line 398: `(idx + 1) % args.logging_steps == 0`. -/
def logCondB (loggingSteps idx : ℕ) : Bool :=
  (idx + 1) % loggingSteps == 0

/-- One iteration of the inner training loop (lines 380-408), in program order:
forward pass (producing the batch loss `l epoch idx`), `optimizer.zero_grad()`,
`loss.backward()` (adds the batch gradient `g epoch idx` to the zeroed
buffers), `lr_scheduler.step()`, the conditional `optimizer.step()` (applies
the current gradient buffers), `completed_steps += 1`, and the periodic
`report_metrics(local_rank, ..., loss, epoch, completed_steps, ...)` call. -/
def trainBatch (args : Args) (numBatches : ℕ) (g : ℕ → ℕ → ℤ) (l : ℕ → ℕ → ℚ)
    (epoch idx : ℕ) (s : TrainState) : TrainState :=
  let s1 := { s with grad := 0 }
  let s2 := { s1 with grad := s1.grad + g epoch idx }
  let s3 := { s2 with schedulerSteps := s2.schedulerSteps + 1 }
  let s4 :=
    if stepCondB args.gradientAccumulationSteps numBatches idx then
      { s3 with stepGrads := s3.stepGrads ++ [s3.grad] }
    else s3
  let s5 := { s4 with completedSteps := s4.completedSteps + 1 }
  if logCondB args.loggingSteps idx then
    { s5 with reports := s5.reports ++ [⟨epoch, s5.completedSteps, l epoch idx⟩] }
  else s5

/-- Lines 380-408: the inner loop `for idx, batch in enumerate(train_loader)`
over the `numBatches` batches of one epoch. -/
def runEpoch (args : Args) (numBatches : ℕ) (g : ℕ → ℕ → ℤ) (l : ℕ → ℕ → ℚ)
    (epoch : ℕ) (s : TrainState) : TrainState :=
  (List.range numBatches).foldl (fun t idx => trainBatch args numBatches g l epoch idx t) s

/-- Lines 373-408: the outer loop `for epoch in range(starting_epoch,
args.num_epochs)` with `starting_epoch = 0`, started from the initial state.
(The per-epoch evaluation pass touches none of the tracked state.) -/
def trainRun (args : Args) (numBatches : ℕ) (g : ℕ → ℕ → ℤ) (l : ℕ → ℕ → ℚ) :
    TrainState :=
  (List.range args.numEpochs).foldl
    (fun t epoch => runEpoch args numBatches g l epoch t) initialTrainState

/-- Definition following the spec's words for claim C2, not the source: the
gradient is accumulated (summed) across the batches since the previous
optimizer step, and each step (fired on the same condition as the code)
applies the accumulated sum, which is then reset. -/
def specAccumulatedStepGrads (k numBatches : ℕ) (g : ℕ → ℤ) : List ℤ :=
  ((List.range numBatches).foldl
    (fun acc idx =>
      let acc2 := (acc.1 + g idx, acc.2)
      if stepCondB k numBatches idx then (0, acc2.2 ++ [acc2.1]) else acc2)
    ((0 : ℤ), ([] : List ℤ))).2

/-- Field-level description of one loop iteration: the gradient buffers end up
holding exactly the current batch's gradient (they were zeroed this very
iteration), an optimizer step (if fired) therefore applies exactly that
gradient, and a report (if fired) carries the current batch's local loss. -/
theorem trainBatch_eq (a : Args) (n : ℕ) (g : ℕ → ℕ → ℤ) (l : ℕ → ℕ → ℚ)
    (e i : ℕ) (s : TrainState) :
    trainBatch a n g l e i s =
      { grad := g e i,
        stepGrads := s.stepGrads ++
          (if stepCondB a.gradientAccumulationSteps n i then [g e i] else []),
        schedulerSteps := s.schedulerSteps + 1,
        completedSteps := s.completedSteps + 1,
        reports := s.reports ++
          (if logCondB a.loggingSteps i then
            [⟨e, s.completedSteps + 1, l e i⟩] else []) } := by
  simp only [trainBatch]
  split <;> split <;> simp

/-- Closed form of the first `m` iterations of one epoch's inner loop. -/
theorem runEpoch_range_aux (a : Args) (n : ℕ) (g : ℕ → ℕ → ℤ) (l : ℕ → ℕ → ℚ)
    (e : ℕ) :
    ∀ (m : ℕ) (s : TrainState),
      (List.range m).foldl (fun t idx => trainBatch a n g l e idx t) s =
        { grad := if m = 0 then s.grad else g e (m - 1),
          stepGrads := s.stepGrads ++
            ((List.range m).filter (stepCondB a.gradientAccumulationSteps n)).map (g e),
          schedulerSteps := s.schedulerSteps + m,
          completedSteps := s.completedSteps + m,
          reports := s.reports ++
            ((List.range m).filter (logCondB a.loggingSteps)).map
              (fun i => ⟨e, s.completedSteps + i + 1, l e i⟩) } := by
  intro m
  induction m with
  | zero => intro s; simp
  | succ m ih =>
      intro s
      rw [List.range_succ, List.foldl_append, ih s]
      simp only [List.foldl_cons, List.foldl_nil]
      rw [trainBatch_eq]
      simp only [List.range_succ,
        List.filter_append, List.map_append, List.filter_cons, List.filter_nil]
      simp only [TrainState.mk.injEq]
      refine ⟨by simp, ?_, by omega, by omega, ?_⟩
      · split <;> simp [List.append_assoc]
      · split <;> simp [List.append_assoc]

/-- Closed form of one full epoch of the inner loop. -/
theorem runEpoch_eq (a : Args) (n : ℕ) (g : ℕ → ℕ → ℤ) (l : ℕ → ℕ → ℚ)
    (e : ℕ) (s : TrainState) :
    runEpoch a n g l e s =
      { grad := if n = 0 then s.grad else g e (n - 1),
        stepGrads := s.stepGrads ++
          ((List.range n).filter (stepCondB a.gradientAccumulationSteps n)).map (g e),
        schedulerSteps := s.schedulerSteps + n,
        completedSteps := s.completedSteps + n,
        reports := s.reports ++
          ((List.range n).filter (logCondB a.loggingSteps)).map
            (fun i => ⟨e, s.completedSteps + i + 1, l e i⟩) } :=
  runEpoch_range_aux a n g l e n s

/-- Every epoch advances `completed_steps` by exactly the number of training
batches, independently of every other argument. -/
theorem foldEpochs_completedSteps (a : Args) (n : ℕ) (g : ℕ → ℕ → ℤ)
    (l : ℕ → ℕ → ℚ) :
    ∀ (es : List ℕ) (s : TrainState),
      ((es.foldl (fun t e => runEpoch a n g l e t) s)).completedSteps =
        s.completedSteps + es.length * n := by
  intro es
  induction es with
  | nil => intro s; simp
  | cons e es ih =>
      intro s
      rw [List.foldl_cons, ih, runEpoch_eq]
      simp only [List.length_cons]
      ring

/-- The whole run ends with
`completed_steps = num_epochs * (number of training batches per epoch)`. -/
theorem trainRun_completedSteps (a : Args) (n : ℕ) (g : ℕ → ℕ → ℤ)
    (l : ℕ → ℕ → ℚ) :
    (trainRun a n g l).completedSteps = a.numEpochs * n := by
  rw [trainRun, foldEpochs_completedSteps]
  simp [initialTrainState]

/-- C1: for every hosts list `H`, current host `h` at index `i` in `H` (the
index Python's `H.index(h)` returns), GPU count `g`, and local rank `r < g`,
the worker computes `world_size = H.length * g` and
`global_rank = i * g + r`, exports both, and initializes the process group
with backend `"nccl"`, that world size, and that rank (lines 204-214). -/
theorem worker_world_size_rank_init (H : List String) (h : String) (g r i : ℕ)
    (hmem : h ∈ H) (hr : r < g) (hidx : pyIndex h H = .ok i) :
    workerInit H h g r = .ok
      [Action.setEnv "WORLD_SIZE" (toString (H.length * g)),
       Action.setEnv "RANK" (toString (i * g + r)),
       Action.initProcessGroup "nccl" (H.length * g) (i * g + r)] := by
  simp [workerInit, hidx]

/-- Witness for C1 at `H = ["algo-1", "algo-2"]`, `h = "algo-2"`, `g = 4`,
`r = 1`: world size `8`, global rank `5`. -/
theorem worker_world_size_rank_init_witness :
    ("algo-2" ∈ ["algo-1", "algo-2"] ∧ 1 < 4 ∧
      pyIndex "algo-2" ["algo-1", "algo-2"] = .ok 1) ∧
    workerInit ["algo-1", "algo-2"] "algo-2" 4 1 = .ok
      [Action.setEnv "WORLD_SIZE" (toString 8),
       Action.setEnv "RANK" (toString 5),
       Action.initProcessGroup "nccl" 8 5] :=
  ⟨⟨by decide, by decide, rfl⟩,
    worker_world_size_rank_init ["algo-1", "algo-2"] "algo-2" 4 1 1
      (by decide) (by decide) rfl⟩

/-- C7: the launcher sets `MASTER_ADDR` to the `master_hostname` field of the
JSON-decoded `SM_TRAINING_ENV` variable and `MASTER_PORT` to the string
`"7777"` (lines 488-492), and each worker sets `WORLD_SIZE` and `RANK` to the
string forms of its computed world size and global rank before the
`init_process_group` call (the two `setEnv` actions precede
`initProcessGroup` in the worker's trace, lines 204-214). -/
theorem master_env_and_worker_env (master : String) (H : List String)
    (h : String) (g r i : ℕ) (hidx : pyIndex h H = .ok i) :
    mainEnvSetup master =
      [Action.setEnv "MASTER_ADDR" master, Action.setEnv "MASTER_PORT" "7777"] ∧
    workerInit H h g r = .ok
      [Action.setEnv "WORLD_SIZE" (toString (H.length * g)),
       Action.setEnv "RANK" (toString (i * g + r)),
       Action.initProcessGroup "nccl" (H.length * g) (i * g + r)] :=
  ⟨rfl, by simp [workerInit, hidx]⟩

/-- Witness for C7 at `master = "algo-1"`, `H = ["algo-1", "algo-2"]`,
`h = "algo-1"`, `g = 2`, `r = 1`. -/
theorem master_env_and_worker_env_witness :
    pyIndex "algo-1" ["algo-1", "algo-2"] = .ok 0 ∧
    (mainEnvSetup "algo-1" =
      [Action.setEnv "MASTER_ADDR" "algo-1", Action.setEnv "MASTER_PORT" "7777"] ∧
    workerInit ["algo-1", "algo-2"] "algo-1" 2 1 = .ok
      [Action.setEnv "WORLD_SIZE" (toString 4),
       Action.setEnv "RANK" (toString 1),
       Action.initProcessGroup "nccl" 4 1]) :=
  ⟨rfl, master_env_and_worker_env "algo-1" ["algo-1", "algo-2"] "algo-1" 2 1 0 rfl⟩

/-- C4: both datasets are wrapped in `DistributedSampler`s with
`num_replicas = world_size`, `rank = global_rank`, `shuffle = True`, and each
`DataLoader` receives the matching sampler with its own `shuffle` flag
resolving to `False` (lines 250-284). -/
theorem samplers_and_loaders (ws gr tbs ebs td ed : ℕ) :
    buildSamplersAndLoaders ws gr tbs ebs td ed =
      ((⟨td, ws, gr, true⟩, ⟨ed, ws, gr, true⟩),
       (⟨td, tbs, some ⟨td, ws, gr, true⟩, false⟩,
        ⟨ed, ebs, some ⟨ed, ws, gr, true⟩, false⟩)) :=
  rfl

/-- C6: when the `pretrain` int flag is nonzero (Python-truthy) the model is a
freshly initialized `EsmForMaskedLM` whose config is the deep copy of the
pretrained config with `vocab_list` set to the default vocab list and
`vocab_size` set to that list's length; when the flag is `0` the model keeps
the pretrained weights loaded from `model_id` (lines 317-322). -/
theorem pretrain_flag_controls_model (mid : String) (cfg : EsmConfig) (p : ℤ)
    (hp : p ≠ 0) :
    selectModel p mid cfg = ModelChoice.freshFromConfig
      { cfg with
        vocabList := get_default_vocab_list,
        vocabSize := get_default_vocab_list.length } ∧
    selectModel 0 mid cfg = ModelChoice.pretrained mid := by
  constructor
  · simp [selectModel, hp]
  · simp [selectModel]

/-- Witness for C6 at `pretrain = 1` and `pretrain = 0` with a one-token
pretrained config; the fresh config carries the 33-token default vocab. -/
theorem pretrain_flag_controls_model_witness :
    ((1 : ℤ) ≠ 0) ∧
    (selectModel 1 "facebook/esm2_t33_650M_UR50D" ⟨["L"], 1⟩ =
        ModelChoice.freshFromConfig ⟨get_default_vocab_list, 33⟩ ∧
      selectModel 0 "facebook/esm2_t33_650M_UR50D" ⟨["L"], 1⟩ =
        ModelChoice.pretrained "facebook/esm2_t33_650M_UR50D") :=
  ⟨by decide,
    pretrain_flag_controls_model "facebook/esm2_t33_650M_UR50D" ⟨["L"], 1⟩ 1
      (by decide)⟩

/-- C8: the launcher spawns exactly `num_gpus` worker processes (local ranks
`0 .. num_gpus - 1`, line 494); the worker with local rank `r` selects device
`"cuda:r"` when CUDA is available and `"cpu"` otherwise (line 313), and wraps
the model in `DistributedDataParallel` with `device_ids = [r]` (line 325). -/
theorem spawn_device_and_ddp_params (g r : ℕ) :
    (spawnedLocalRanks g).length = g ∧
    spawnedLocalRanks g = List.range g ∧
    deviceFor true r = "cuda:" ++ toString r ∧
    deviceFor false r = "cpu" ∧
    wrapDDP r = ⟨[r], true⟩ :=
  ⟨List.length_range g, rfl, rfl, rfl, rfl⟩

/-- C9: `calc_perplexity` is total on every outcome `math.exp` can produce for
a real loss value (a representable float `v`, or an `OverflowError`): it
returns the value as a finite perplexity in the first case and positive
infinity in the second, and in both cases returns normally — no exception
escapes. -/
theorem calc_perplexity_total_on_reals (v : ℚ) :
    calc_perplexity (.ok v) = .ok (PerpV.finite v) ∧
    calc_perplexity (.error PyExn.overflowError) = .ok PerpV.posInf :=
  ⟨rfl, rfl⟩

/-- C5 counterexample: the `OverflowError` raised by `math.exp` inside
`calc_perplexity` is caught and converted to the substitute value
`float("inf")` (lines 168-171), so it is false that every exception raised
during the script's computations propagates uncaught. -/
theorem overflow_exception_caught :
    calc_perplexity (.error PyExn.overflowError) = .ok PerpV.posInf ∧
    calc_perplexity (.error PyExn.overflowError) ≠ .error PyExn.overflowError :=
  ⟨rfl, by simp [calc_perplexity]⟩

/-- C5 amended: the script defines no custom exception classes and installs
exactly one handler — `calc_perplexity` catches `OverflowError` and substitutes
positive infinity; every other exception propagates out unchanged. -/
theorem only_overflow_error_is_caught (e : PyExn)
    (hne : e ≠ PyExn.overflowError) :
    calc_perplexity (.error e) = .error e ∧
    calc_perplexity (.error PyExn.overflowError) = .ok PerpV.posInf := by
  refine ⟨?_, rfl⟩
  cases e with
  | overflowError => exact absurd rfl hne
  | valueError => rfl
  | other s => rfl

/-- Witness for the amended C5 at `e = ValueError`: it propagates uncaught. -/
theorem only_overflow_error_is_caught_witness :
    PyExn.valueError ≠ PyExn.overflowError ∧
    (calc_perplexity (.error PyExn.valueError) = .error PyExn.valueError ∧
      calc_perplexity (.error PyExn.overflowError) = .ok PerpV.posInf) :=
  ⟨by decide, only_overflow_error_is_caught PyExn.valueError (by decide)⟩

/-- C2, evaluated at the failing input `gradient_accumulation_steps = 2`, one
epoch of two batches with gradients `1` and `1`: because
`optimizer.zero_grad()` runs on every batch (line 387) before
`loss.backward()`, the single optimizer step fired at the second batch applies
gradient `1` — the last batch's gradient only — while accumulation as the
claim states it would apply the sum `2`; the first batch's gradient is
computed and then discarded. -/
theorem grad_accum_step_uses_last_batch_only :
    (runEpoch ⟨1, 2, 10, none⟩ 2 (fun _ _ => 1) (fun _ _ => 0) 0
        initialTrainState).stepGrads = [1] ∧
    specAccumulatedStepGrads 2 2 (fun _ => 1) = [2] ∧
    ([(1 : ℤ)] ≠ [2]) :=
  ⟨rfl, rfl, by decide⟩

/-- C3 counterexample: with two ranks whose local losses are `0` and `1`, the
process with rank `0` reports its own local loss `0` (lines 178, 186-189),
while the loss aggregated over the process group (the mean) is `1/2 ≠ 0`; the
reported metric is therefore not aggregated across ranks. -/
theorem reported_loss_not_aggregated :
    report_metrics 0 0 0 10 = some ⟨0, 10, 0⟩ ∧
    specAggregatedLoss [0, 1] = 1 / 2 ∧
    ((0 : ℚ) ≠ 1 / 2) :=
  ⟨rfl, by norm_num [specAggregatedLoss], by norm_num⟩

/-- C3 amended: metric reporting is periodic but purely local — within an
epoch the training loop calls `report_metrics` exactly at the batches with
`(idx + 1) % logging_steps == 0`, passing the calling process's own local
last-batch loss together with the current `completed_steps`; `report_metrics`
prints exactly the loss it is given when the calling rank is `0` and nothing
otherwise, performing no cross-rank aggregation. -/
theorem training_reports_periodic_and_local (a : Args) (n : ℕ)
    (g : ℕ → ℕ → ℤ) (l : ℕ → ℕ → ℚ) (e : ℕ) (lv : ℚ) (ep st r : ℕ)
    (hL : 1 ≤ a.loggingSteps) (hr : r ≠ 0) :
    (runEpoch a n g l e initialTrainState).reports =
      ((List.range n).filter (logCondB a.loggingSteps)).map
        (fun i => ⟨e, i + 1, l e i⟩) ∧
    report_metrics 0 lv ep st = some ⟨ep, st, lv⟩ ∧
    report_metrics r lv ep st = none := by
  refine ⟨?_, rfl, by simp [report_metrics, hr]⟩
  rw [runEpoch_eq]
  simp [initialTrainState]

/-- Witness for the amended C3: `logging_steps = 2` over four batches reports
exactly after batches 2 and 4. -/
theorem training_reports_periodic_and_local_witness :
    ((1 : ℕ) ≤ 2 ∧ (1 : ℕ) ≠ 0) ∧
    ((runEpoch ⟨1, 1, 2, none⟩ 4 (fun _ _ => 0) (fun _ _ => 0) 0
          initialTrainState).reports = [⟨0, 2, 0⟩, ⟨0, 4, 0⟩] ∧
      report_metrics 0 7 0 2 = some ⟨0, 2, 7⟩ ∧
      report_metrics 1 7 0 2 = none) := by
  have h := training_reports_periodic_and_local ⟨1, 1, 2, none⟩ 4
    (fun _ _ => 0) (fun _ _ => 0) 0 7 0 2 1 (by decide) (by decide)
  exact ⟨⟨by decide, by decide⟩, h.1.trans rfl, h.2.1, h.2.2⟩

/-- C10: `steps_this_run` has no effect — two runs whose arguments differ only
in `stepsThisRun` produce identical training-loop behaviour (same batches,
same optimizer steps, same reports), and every run ends with
`completed_steps = num_epochs * (number of training batches per epoch)`; no
step limit is enforced anywhere.  The hypotheses only rule out the
division-by-zero arguments on which the Python loop would raise. -/
theorem steps_this_run_has_no_effect (a : Args) (v : Option ℤ) (n : ℕ)
    (g : ℕ → ℕ → ℤ) (l : ℕ → ℕ → ℚ)
    (hk : 1 ≤ a.gradientAccumulationSteps) (hL : 1 ≤ a.loggingSteps) :
    trainRun { a with stepsThisRun := v } n g l = trainRun a n g l ∧
    (trainRun a n g l).completedSteps = a.numEpochs * n :=
  ⟨rfl, trainRun_completedSteps a n g l⟩

/-- Witness for C10: two epochs of three batches, `stepsThisRun` changed from
`none` to `some 5`, identical runs, six completed steps. -/
theorem steps_this_run_has_no_effect_witness :
    ((1 : ℕ) ≤ 1 ∧ (1 : ℕ) ≤ 10) ∧
    (trainRun ⟨2, 1, 10, some 5⟩ 3 (fun _ _ => 0) (fun _ _ => 0) =
        trainRun ⟨2, 1, 10, none⟩ 3 (fun _ _ => 0) (fun _ _ => 0) ∧
      (trainRun ⟨2, 1, 10, none⟩ 3 (fun _ _ => 0) (fun _ _ => 0)).completedSteps = 6) :=
  ⟨⟨by decide, by decide⟩,
    steps_this_run_has_no_effect ⟨2, 1, 10, none⟩ (some 5) 3
      (fun _ _ => 0) (fun _ _ => 0) (by decide) (by decide)⟩

end DDP
